import Mathlib

/-!
Shallow embedding of `src/dashboard.py` (Dash financial dashboard:
Ambuja Cements vs UltraTech Cement).

Value model: the hand-entered tables hold Python floats or `None`.
`pd.DataFrame(rows)` infers a float64 dtype for the `Value` column, so a
Python `None` in a table becomes a pandas `NaN` in the dataframe.  We keep
the two stages apart: `PyVal` is a value as written in the source tables,
`PdVal` is a cell of the dataframe.  Numeric values are embedded as exact
rationals; every constant in the source has at most two decimal digits, so
rational arithmetic matches float arithmetic on everything the dashboard
computes (lookups, means of singleton groups, rounding to 2 or 3 decimals).
-/

namespace Dashboard

/-- A value as written in the source data tables: a float or Python `None`. -/
inductive PyVal where
  | pyNone : PyVal
  | num : ℚ → PyVal
deriving DecidableEq, Repr

/-- A cell of the pandas dataframe: a float64, i.e. a number or `NaN`. -/
inductive PdVal where
  | nan : PdVal
  | num : ℚ → PdVal
deriving DecidableEq, Repr

/-- Dataframe construction coerces the mixed float/None column to float64:
`None` becomes `NaN`. -/
def toPd : PyVal → PdVal
  | PyVal.pyNone => PdVal.nan
  | PyVal.num q => PdVal.num q

/-- A numeric table entry: every constant in the source is written with two
decimal digits, so `v u h` transcribes the source's `u.h` (for instance
`v 1 62` transcribes `1.62`) as the exact rational `u + h/100`. -/
def v (units hundredths : ℕ) : PyVal := PyVal.num (mkRat (units * 100 + hundredths) 100)

/-- Shorthand for a `None` table entry. -/
def na : PyVal := PyVal.pyNone

/-- `metric_colors` from the source. -/
def metric_colors : List (String × String) :=
  [ ("Current Ratio", "#1f77b4"),
    ("Quick Ratio", "#aec7e8"),
    ("Gross Profit Margin", "#2ca02c"),
    ("Net Profit Margin", "#98df8a"),
    ("Interest Coverage Ratio", "#9467bd"),
    ("Inventory Turnover", "#ff7f0e"),
    ("Asset Turnover", "#ffbb78"),
    ("Trade Receivable Turnover", "#d62728") ]

/-- `company_colors` from the source. -/
def company_colors : List (String × String) :=
  [ ("Ambuja Cements", "#1f77b4"),
    ("UltraTech Cement", "#ff7f0e") ]

/-- `years` from the source. -/
def years : List String := ["Mar-21", "Mar-22", "Mar-23", "Mar-24", "Mar-25"]

/-- `year_numbers` from the source. -/
def year_numbers : List ℕ := [2021, 2022, 2023, 2024, 2025]

/-- The `ambuja` table from the source (metric name, 5 yearly values). -/
def ambuja : List (String × List PyVal) :=
  [ ("Current Ratio", [v 1 62, v 1 42, v 1 96, v 2 03, v 1 55]),
    ("Quick Ratio", [v 1 41, v 1 22, v 1 72, v 1 79, v 1 30]),
    ("Gross Profit Margin", [v 17 46, v 8 35, v 8 93, v 14 40, v 9 96]),
    ("Net Profit Margin", [v 9 59, v 6 25, v 6 63, v 10 78, v 11 89]),
    ("Interest Coverage Ratio", [v 37 14, v 19 33, v 21 63, v 21 50, v 28 46]),
    ("Inventory Turnover", [v 10 58, v 9 26, v 11 90, v 9 19, v 8 25]),
    ("Asset Turnover", [v 0 94, v 0 95, v 1 09, v 0 74, v 0 61]),
    ("Trade Receivable Turnover", [v 48 00, v 36 51, v 43 26, v 28 01, v 25 00]) ]

/-- The `ultratech` table from the source (metric name, 5 yearly values). -/
def ultratech : List (String × List PyVal) :=
  [ ("Current Ratio", [v 0 37, v 0 39, v 0 42, v 0 43, v 0 44]),
    ("Quick Ratio", [v 0 20, v 0 14, v 0 17, v 0 15, v 0 17]),
    ("Gross Profit Margin", [v 56 22, v 50 97, v 45 01, v 48 87, v 49 03]),
    ("Net Profit Margin", [v 12 30, v 13 69, v 7 86, v 9 97, v 8 47]),
    ("Interest Coverage Ratio", [v 7 31, v 11 37, v 10 62, v 11 71, v 6 67]),
    ("Inventory Turnover", [na, v 5 59, v 6 00, v 4 97, v 4 41]),
    ("Asset Turnover", [na, v 0 86, v 1 01, v 1 07, v 0 92]),
    ("Trade Receivable Turnover", [na, v 2 54, v 2 58, v 2 55, v 2 28]) ]

/-- One row of the tidy dataframe `df`. -/
structure Record where
  company : String
  metric : String
  value : PdVal
  yearLabel : String
  year : ℕ
deriving DecidableEq, Repr

/-- The rows a company's table contributes for year index `i`
(the inner loops of the dataframe-building loop). -/
def rowsFor (company : String) (tbl : List (String × List PyVal)) (i : ℕ) : List Record :=
  tbl.map fun kv =>
    { company := company, metric := kv.1, value := toPd (kv.2.getD i PyVal.pyNone),
      yearLabel := years.getD i "", year := year_numbers.getD i 0 }

/-- The tidy dataframe `df`: for each year index, Ambuja's rows then
UltraTech's rows, exactly as the source's nested loop appends them. -/
def df : List Record :=
  (List.range years.length).flatMap fun i =>
    rowsFor "Ambuja Cements" ambuja i ++ rowsFor "UltraTech Cement" ultratech i

/-- `metric_groups` from the source: group key to ordered metric list. -/
def metric_groups : List (String × List String) :=
  [ ("liquidity", ["Current Ratio", "Quick Ratio"]),
    ("profitability", ["Gross Profit Margin", "Net Profit Margin"]),
    ("turnover", ["Inventory Turnover", "Asset Turnover", "Trade Receivable Turnover"]),
    ("leverage", ["Interest Coverage Ratio"]) ]

/-- Dict lookup `metric_groups[g]` / `metric_groups.get(g, default)`:
`some` the metric list when `g` is a key, `none` otherwise. -/
def metricGroupsLookup (g : String) : Option (List String) :=
  metric_groups.lookup g

/-- The catalog's group keys. -/
def groupKeys : List String := metric_groups.map Prod.fst

example : df.length = 80 := by decide

/-! Exact rational arithmetic.  The dashboard's arithmetic (a mean, a
rounding, a fixed-point format) is carried out on exact rationals through
`mkRat` and the `num`/`den` projections, which the kernel evaluates; the
bridging lemmas below prove these operations equal Lean's own `ℚ`
operations. -/

/-- Exact rational addition through `mkRat`. -/
def qAdd (a b : ℚ) : ℚ := mkRat (a.num * b.den + b.num * a.den) (a.den * b.den)

/-- Exact division of a rational by a natural number through `mkRat`. -/
def qDivNat (a : ℚ) (n : ℕ) : ℚ := mkRat a.num (a.den * n)

/-- Sum of a list of rationals. -/
def qSum (l : List ℚ) : ℚ := l.foldr qAdd (mkRat 0 1)

/-- `qAdd` is rational addition. -/
theorem qAdd_eq (a b : ℚ) : qAdd a b = a + b := by
  rw [Rat.add_def]
  simp [qAdd, Rat.normalize_eq_mkRat, Int.mul_comm]

/-! Sorting helpers.  `sort_values('Year')` sorts a sub-frame by the year
column; within each sub-frame the year keys are pairwise distinct, so any
comparison sort computes the same list.  We use a structural insertion sort. -/

/-- Insert `a` into `l` before the first element `b` with `le a b`. -/
def insertLe {α : Type} (le : α → α → Bool) (a : α) : List α → List α
  | [] => [a]
  | b :: l => if le a b then a :: b :: l else b :: insertLe le a l

/-- Insertion sort by the comparison `le`. -/
def sortLe {α : Type} (le : α → α → Bool) (l : List α) : List α :=
  l.foldr (insertLe le) []

/-- `sub.sort_values('Year')`: sort records by ascending year. -/
def sortByYear (l : List Record) : List Record :=
  sortLe (fun a b => decide (a.year ≤ b.year)) l

/-- `kpi_latest(df_local, company, metric)` from the source: the `Value` of
the last row after sorting the matching rows by year, `None` if no row
matches. -/
def kpi_latest (dfLocal : List Record) (company metric : String) : Option PdVal :=
  let sub := dfLocal.filter fun r => r.company == company && r.metric == metric
  if sub.isEmpty then Option.none
  else (sortByYear sub).getLast?.map Record.value

/-! Number formatting.  `f"{v:.2f}"` fixed-point formats a float.  Every
value the dashboard formats is an exact multiple of 1/100, so no
float-representation or tie-breaking effect is observable; we format the
exact rational. -/

/-- Decimal digits of `m` left-padded with zeros to width `d`. -/
def padDigits (d : ℕ) (m : ℕ) : String :=
  let s := toString m
  String.mk (List.replicate (d - s.length) '0') ++ s

/-- The integer nearest `q * 10^d` (ties rounded up), computed on
`num`/`den`: for `b > 0`, `⌊a / b⌋ = a.fdiv b`, and
`q * 10^d + 1/2 = (2 * 10^d * q.num + q.den) / (2 * q.den)`.  Every value
the dashboard formats or rounds is an exact multiple of `10^-d`, so the
tie-breaking mode (floats round half to even) is unobservable. -/
def scaledRound (d : ℕ) (q : ℚ) : ℤ :=
  Int.fdiv (2 * 10 ^ d * q.num + q.den) (2 * q.den)

/-- Fixed-point format with `d` decimal places. -/
def fmtFixed (d : ℕ) (q : ℚ) : String :=
  let n : ℤ := scaledRound d q
  let a := n.natAbs
  (if n < 0 then "-" else "") ++ toString (a / 10 ^ d) ++ "." ++ padDigits d (a % 10 ^ d)

/-- `f"{v:.2f}"` applied to a dataframe cell.  A cell is a float64, never
the Python `None` object, so the source's `v is not None` test is true even
for `NaN`, and formatting `NaN` yields the string `nan`. -/
def fmtFloat2 : PdVal → String
  | PdVal.nan => "nan"
  | PdVal.num q => fmtFixed 2 q

/-- `f"{val:.2f}" if val is not None else "—"` where `val` is the result of
`kpi_latest` (Python `None` exactly when no row matched). -/
def fmtKpi : Option PdVal → String
  | Option.none => "—"
  | Option.some pv => fmtFloat2 pv

/-- The body of one KPI card: a single formatted value, or the
Ambuja/UltraTech pair shown when `company == 'Both'`. -/
inductive CardBody where
  | single : String → CardBody
  | both : String → String → CardBody
deriving DecidableEq, Repr

/-- One KPI card as assembled by `update_kpis_and_insights`. -/
structure KpiCard where
  metric : String
  body : CardBody
deriving DecidableEq, Repr

/-- The KPI callback's output: the card list and the per-metric insight
entries (the insights section also carries a constant heading, which we
omit as selection-independent). -/
structure KpiOutput where
  cards : List KpiCard
  insightItems : List (String × String)
deriving DecidableEq, Repr

/-- The `insights` dict from the source. -/
def insights : List (String × String) :=
  [ ("Current Ratio", "Ambuja’s 1.62 (’21) to 1.55 (’25) shows solid liquidity, peaking at 2.03 (’24), but recent dip hints at tighter operations. UltraTech’s low 0.37–0.44 signals lean liquidity, risking strain but efficient for capital-heavy cement."),
    ("Quick Ratio", "Ambuja’s 1.41–1.30 (’21–’25) reflects strong immediate liquidity, though declining. UltraTech’s 0.20–0.17 shows vulnerability, prioritizing efficiency over cash reserves."),
    ("Gross Profit Margin", "Ambuja’s volatile 17.46% (’21) to 9.96% (’25) suggests cost pressures, recovering to 14.40% (’24). UltraTech’s robust 56.22%–49.03% showcases superior pricing power and scale."),
    ("Net Profit Margin", "Ambuja improves from 6.25% (’22) to 11.89% (’25), signaling better cost control. UltraTech peaks at 13.69% (’22) but falls to 8.47% (’25), indicating moderated profitability."),
    ("Interest Coverage Ratio", "Ambuja’s strong 37.14–28.46 (’21–’25) reflects low debt risk. UltraTech’s 7.31–6.67 suggests higher leverage but manageable coverage."),
    ("Inventory Turnover", "Ambuja’s 10.58–8.25 (’21–’25) shows slowing inventory movement, risking costs. UltraTech’s 5.59–4.41 (’22–’25) indicates even slower turnover, less efficient."),
    ("Asset Turnover", "Ambuja’s 0.94–0.61 (’21–’25) reflects declining asset efficiency. UltraTech’s 0.86–0.92 (’22–’25) is steadier, slightly outperforming in sales generation."),
    ("Trade Receivable Turnover", "Ambuja’s 48.00–25.00 (’21–’25) signals slower collections, risking cash flow. UltraTech’s 2.54–2.28 (’22–’25) is far slower, highlighting credit leniency.") ]

/-- `update_kpis_and_insights(company, group)`: `metric_groups.get(group, [])`
defaults to the empty list for an unknown group (no exception), then one
card per metric and one insight entry per metric with the literal fallback
for metrics lacking an insight. -/
def update_kpis_and_insights (company group : String) : KpiOutput :=
  let metrics := (metricGroupsLookup group).getD []
  { cards := metrics.map fun metric =>
      if company == "Both" then
        { metric := metric,
          body := CardBody.both (fmtKpi (kpi_latest df "Ambuja Cements" metric))
            (fmtKpi (kpi_latest df "UltraTech Cement" metric)) }
      else
        { metric := metric, body := CardBody.single (fmtKpi (kpi_latest df company metric)) },
    insightItems := metrics.map fun metric =>
      (metric, (insights.lookup metric).getD "No insight available.") }

/-! The chart/sparkline/table callback `update_charts`. -/

/-- A bar trace's marker: the metric color, and whether the hatch pattern
that distinguishes UltraTech in dual-company mode is set. -/
structure Marker where
  color : String
  hasPattern : Bool
deriving DecidableEq, Repr

/-- One `go.Bar` trace of the main chart. -/
structure Series where
  x : List String
  y : List PdVal
  name : String
  text : List String
  marker : Marker
deriving DecidableEq, Repr

/-- One `go.Scatter` trace of the sparkline. -/
structure SparkSeries where
  x : List String
  y : List PdVal
  name : String
  color : String
deriving DecidableEq, Repr

/-- The filtered dataframe `dff`: metric in the selected group's list and
year within the selected range (the company selection is not applied). -/
def dffOf (metrics : List String) (yrMin yrMax : ℕ) : List Record :=
  df.filter fun r =>
    metrics.contains r.metric && decide (yrMin ≤ r.year) && decide (r.year ≤ yrMax)

/-- One bar trace: the rows of `dff` for `(metric, comp)` sorted by year;
`x` the year labels, `y` the values, `text` the per-bar labels
`f"{v:.2f}" if v is not None else "—"` (over float64 cells). -/
def seriesFor (dff : List Record) (metric comp name : String) (marker : Marker) : Series :=
  let s := sortByYear (dff.filter fun r => r.metric == metric && r.company == comp)
  { x := s.map Record.yearLabel, y := s.map Record.value, name := name,
    text := s.map fun r => fmtFloat2 r.value, marker := marker }

/-- The two companies iterated in `Both` mode, in source order. -/
def bothCompanies : List String := ["Ambuja Cements", "UltraTech Cement"]

/-- The main chart's traces: one per metric and company in `Both` mode
(UltraTech marked with the hatch pattern), one per metric otherwise. -/
def mainSeriesOf (company : String) (metrics : List String) (dff : List Record) : List Series :=
  if company == "Both" then
    metrics.flatMap fun metric =>
      bothCompanies.map fun comp =>
        seriesFor dff metric comp (comp ++ " — " ++ metric)
          { color := (metric_colors.lookup metric).getD "#000000",
            hasPattern := comp == "UltraTech Cement" }
  else
    metrics.map fun metric =>
      seriesFor dff metric company metric
        { color := (metric_colors.lookup metric).getD "#000000", hasPattern := false }

/-- One sparkline trace for a company over the primary metric. -/
def sparkFor (dff : List Record) (primary comp : String) : SparkSeries :=
  let s := sortByYear (dff.filter fun r => r.metric == primary && r.company == comp)
  { x := s.map Record.yearLabel, y := s.map Record.value, name := comp,
    color := (company_colors.lookup comp).getD "#000000" }

/-- The sparkline's traces: one per company in `Both` mode, else one. -/
def sparkSeriesOf (company primary : String) (dff : List Record) : List SparkSeries :=
  if company == "Both" then bothCompanies.map fun comp => sparkFor dff primary comp
  else [sparkFor dff primary company]

/-! The pivoted data table.
`dff.pivot_table(index='YearLabel', columns=['Company','Metric'],
values='Value')` aggregates `Value` with the default mean over each
`(YearLabel, Company, Metric)` key, skipping `NaN` cells; with the default
`dropna=True` every all-`NaN` aggregated entry is dropped, so a key whose
cells are all `NaN` contributes neither a row label nor a column label, and
a dropped-but-unstacked cell rematerializes as `NaN`.  Row and column
labels come out sorted (lexicographically). -/

/-- A dataframe cell as a rational, `NaN` excluded (mean skips `NaN`). -/
def toNum : PdVal → Option ℚ
  | PdVal.nan => Option.none
  | PdVal.num q => Option.some q

/-- The non-`NaN` `Value` cells of one `(YearLabel, Company, Metric)` key —
what the mean aggregation averages. -/
def aggNums (dff : List Record) (yl comp metric : String) : List ℚ :=
  (dff.filter fun r =>
    r.yearLabel == yl && r.company == comp && r.metric == metric).filterMap fun r => toNum r.value

/-- The mean aggregate over one key, `NaN` when no non-`NaN` cell matches. -/
def aggMean (dff : List Record) (yl comp metric : String) : PdVal :=
  if (aggNums dff yl comp metric).isEmpty then PdVal.nan
  else PdVal.num (qDivNat (qSum (aggNums dff yl comp metric)) (aggNums dff yl comp metric).length)

/-- The `(YearLabel, Company, Metric)` keys present in `dff`. -/
def dffKeys (dff : List Record) : List (String × String × String) :=
  (dff.map fun r => (r.yearLabel, r.company, r.metric)).dedup

/-- The keys surviving `dropna=True`: those whose aggregate is not `NaN`. -/
def survivingKeys (dff : List Record) : List (String × String × String) :=
  (dffKeys dff).filter fun k => aggMean dff k.1 k.2.1 k.2.2 != PdVal.nan

/-- Strict lexicographic comparison of character lists by code point (the
order in which pandas sorts the string labels ascending). -/
def charsLt : List Char → List Char → Bool
  | [], [] => false
  | [], _ :: _ => true
  | _ :: _, [] => false
  | a :: as, b :: bs => decide (a < b) || (a == b && charsLt as bs)

/-- String comparison as a Bool (pandas sorts labels ascending). -/
def strLeB (a b : String) : Bool := !charsLt b.data a.data

/-- Lexicographic comparison of `(Company, Metric)` column labels. -/
def colLeB (a b : String × String) : Bool :=
  charsLt a.1.data b.1.data || (a.1 == b.1 && strLeB a.2 b.2)

/-- The pivoted grid: `rowLabels` the sorted year labels of surviving keys,
`colLabels` the sorted `(Company, Metric)` pairs of surviving keys, each
cell the mean aggregate (hence `NaN` exactly on the gaps unstack refills). -/
structure TableGrid where
  rowLabels : List String
  colLabels : List (String × String)
  cells : List (List PdVal)
deriving DecidableEq, Repr

/-- The pivot's row index: the sorted year labels of surviving keys. -/
def pivotRowLabels (dff : List Record) : List String :=
  sortLe strLeB ((survivingKeys dff).map fun k => k.1).dedup

/-- The pivot's columns: the sorted `(Company, Metric)` pairs of surviving
keys. -/
def pivotColLabels (dff : List Record) : List (String × String) :=
  sortLe colLeB ((survivingKeys dff).map fun k => k.2).dedup

/-- `dff.pivot_table(index='YearLabel', columns=['Company','Metric'], values='Value')`. -/
def pivot_table (dff : List Record) : TableGrid :=
  { rowLabels := pivotRowLabels dff, colLabels := pivotColLabels dff,
    cells := (pivotRowLabels dff).map fun yl =>
      (pivotColLabels dff).map fun cm => aggMean dff yl cm.1 cm.2 }

/-- `round(3)` on a rational (every tabulated value is an exact multiple of
1/100, so no float tie-breaking is observable). -/
def round3 (q : ℚ) : ℚ := mkRat (scaledRound 3 q) 1000

/-- `round(3)` on one cell (`NaN` stays `NaN`). -/
def roundCell3 : PdVal → PdVal
  | PdVal.nan => PdVal.nan
  | PdVal.num q => PdVal.num (round3 q)

/-- `table_df.round(3)` applied cellwise. -/
def roundGrid3 (t : TableGrid) : TableGrid :=
  { t with cells := t.cells.map fun row => row.map roundCell3 }

/-- The cell of `t` at row label `yl` and column label `cm`, by position. -/
def tableCell (t : TableGrid) (yl : String) (cm : String × String) : Option PdVal :=
  match t.rowLabels.indexOf? yl, t.colLabels.indexOf? cm with
  | Option.some i, Option.some j => (t.cells.getD i []).getD j PdVal.nan
  | _, _ => Option.none

/-- Specification predicate: the cell is `NaN` or an exact multiple of
`1/1000`, i.e. a value rounded to three decimal places. -/
def cellIs3dp : PdVal → Bool
  | PdVal.nan => true
  | PdVal.num q => 1000 % q.den == 0

/-- The triple returned by `update_charts` (the main figure's traces, the
sparkline's traces and title, and the rounded pivot grid that the callback
serializes to CSV text). -/
structure ChartsOutput where
  mainSeries : List Series
  sparkSeries : List SparkSeries
  sparkTitle : String
  table : TableGrid
deriving DecidableEq, Repr

/-- `update_charts(company, group, year_range)`.  `metric_groups[group]`
raises `KeyError` for an unknown key and `metrics[0]` raises `IndexError`
on an empty metric list — both modelled as `none`; every other step is
total. -/
def update_charts (company group : String) (year_range : ℕ × ℕ) : Option ChartsOutput :=
  match metricGroupsLookup group with
  | Option.none => Option.none
  | Option.some metrics =>
    match metrics.head? with
    | Option.none => Option.none
    | Option.some primary =>
      let dff := dffOf metrics year_range.1 year_range.2
      Option.some
        { mainSeries := mainSeriesOf company metrics dff,
          sparkSeries := sparkSeriesOf company primary dff,
          sparkTitle := "Trend — " ++ primary,
          table := roundGrid3 (pivot_table dff) }

/-! General lemmas about the embedded operations. -/

/-- Membership in an insertion step. -/
theorem mem_insertLe {α : Type} (le : α → α → Bool) (a b : α) (l : List α) :
    a ∈ insertLe le b l ↔ a = b ∨ a ∈ l := by
  induction l with
  | nil => simp [insertLe]
  | cons c t ih =>
    simp only [insertLe]
    split
    · simp [List.mem_cons]
    · simp only [List.mem_cons, ih]
      tauto

/-- Sorting preserves membership. -/
theorem mem_sortLe {α : Type} (le : α → α → Bool) (a : α) (l : List α) :
    a ∈ sortLe le l ↔ a ∈ l := by
  induction l with
  | nil => simp [sortLe]
  | cons b t ih =>
    simp only [sortLe, List.foldr, List.mem_cons] at *
    rw [mem_insertLe]
    tauto

/-- The mean aggregate of a key is non-`NaN` exactly when some matching
record carries a non-`NaN` value. -/
theorem aggMean_ne_nan_iff (dff : List Record) (yl c m : String) :
    aggMean dff yl c m ≠ PdVal.nan ↔
      ∃ r ∈ dff, r.yearLabel = yl ∧ r.company = c ∧ r.metric = m ∧ r.value ≠ PdVal.nan := by
  unfold aggMean
  split
  next hempty =>
    rw [List.isEmpty_iff] at hempty
    simp only [ne_eq, not_true_eq_false, false_iff]
    rintro ⟨r, hr, h1, h2, h3, h4⟩
    obtain ⟨q, hq⟩ : ∃ q, toNum r.value = Option.some q := by
      cases hv : r.value with
      | nan => exact absurd hv h4
      | num q => exact ⟨q, by simp [toNum, hv]⟩
    have hmem : q ∈ aggNums dff yl c m := by
      unfold aggNums
      rw [List.mem_filterMap]
      refine ⟨r, ?_, hq⟩
      rw [List.mem_filter]
      exact ⟨hr, by simp [h1, h2, h3]⟩
    rw [hempty] at hmem
    exact absurd hmem (List.not_mem_nil q)
  next hne =>
    simp only [ne_eq, reduceCtorEq, not_false_eq_true, true_iff]
    have hnil : ¬ aggNums dff yl c m = [] := by
      intro hh
      rw [← List.isEmpty_iff] at hh
      simp [hh] at hne
    obtain ⟨q, hq⟩ := List.exists_mem_of_ne_nil _ hnil
    unfold aggNums at hq
    rw [List.mem_filterMap] at hq
    obtain ⟨r, hr, hqq⟩ := hq
    rw [List.mem_filter] at hr
    obtain ⟨hrdff, hp⟩ := hr
    simp only [Bool.and_eq_true, beq_iff_eq] at hp
    refine ⟨r, hrdff, hp.1.1, hp.1.2, hp.2, ?_⟩
    intro hv
    rw [hv] at hqq
    simp [toNum] at hqq

/-- Characterization of the pivot's column set: a `(company, metric)`
column exists exactly when some filtered record for that pair carries a
non-`NaN` value (`dropna=True` drops all-`NaN` entries). -/
theorem pivotColLabels_mem_iff (dff : List Record) (c m : String) :
    (c, m) ∈ pivotColLabels dff ↔
      ∃ r ∈ dff, r.company = c ∧ r.metric = m ∧ r.value ≠ PdVal.nan := by
  unfold pivotColLabels
  rw [mem_sortLe, List.mem_dedup, List.mem_map]
  constructor
  · rintro ⟨⟨kyl, kc, km⟩, hk, hk2⟩
    unfold survivingKeys at hk
    rw [List.mem_filter] at hk
    obtain ⟨hkeys, hagg⟩ := hk
    rw [bne_iff_ne] at hagg
    obtain ⟨r, hr, h1, h2, h3, h4⟩ := (aggMean_ne_nan_iff dff kyl kc km).mp hagg
    obtain ⟨rfl, rfl⟩ : kc = c ∧ km = m := by
      simpa [Prod.ext_iff] using hk2
    exact ⟨r, hr, h2, h3, h4⟩
  · rintro ⟨r, hr, hc, hm, hv⟩
    refine ⟨(r.yearLabel, r.company, r.metric), ?_, by simp [hc, hm]⟩
    unfold survivingKeys dffKeys
    rw [List.mem_filter]
    refine ⟨?_, ?_⟩
    · rw [List.mem_dedup, List.mem_map]
      exact ⟨r, hr, rfl⟩
    · rw [bne_iff_ne, aggMean_ne_nan_iff]
      exact ⟨r, hr, rfl, rfl, rfl, hv⟩

/-- A successful catalog lookup returns an entry of the catalog. -/
theorem metricGroupsLookup_mem {g : String} {ms : List String}
    (h : metricGroupsLookup g = Option.some ms) : (g, ms) ∈ metric_groups := by
  unfold metricGroupsLookup at h
  unfold metric_groups at h ⊢
  repeat rw [List.lookup] at h
  repeat' split at h
  all_goals simp_all [List.mem_cons, beq_iff_eq]

/-- Length of a rectangular flat-map. -/
theorem length_flatMap_map {α β γ : Type} (l : List α) (l2 : List β) (f : α → β → γ) :
    (l.flatMap fun a => l2.map (f a)).length = l.length * l2.length := by
  induction l with
  | nil => simp
  | cons a t ih => simp [ih, Nat.succ_mul, Nat.add_comm]

/-- Every record of the dataset carries a year between 2021 and 2025. -/
theorem df_year_bounds : ∀ r ∈ df, 2021 ≤ r.year ∧ r.year ≤ 2025 := by decide

/-- Filtering by a year range equals filtering by the range clamped to the
dataset's year bounds. -/
theorem dffOf_clamp (metrics : List String) (lo hi : ℕ) :
    dffOf metrics lo hi = dffOf metrics (max lo 2021) (min hi 2025) := by
  unfold dffOf
  apply List.filter_congr
  intro r hr
  obtain ⟨h1, h2⟩ := df_year_bounds r hr
  have e1 : decide (lo ≤ r.year) = decide (max lo 2021 ≤ r.year) := by
    rw [decide_eq_decide]; omega
  have e2 : decide (r.year ≤ hi) = decide (r.year ≤ min hi 2025) := by
    rw [decide_eq_decide]; omega
  rw [e1, e2]

/-- The sparkline trace list is never empty, whatever the selection. -/
theorem sparkSeriesOf_ne_nil (c p : String) (dff : List Record) :
    (sparkSeriesOf c p dff).isEmpty = false := by
  unfold sparkSeriesOf
  split <;> rfl

/-! The claims. -/

/-- C1, counterexample: at the concrete unknown group key `"growth"` the
KPI callback does not fail — `metric_groups.get(group, [])` defaults to
the empty metric list, so it silently returns an empty card list and empty
per-metric insights, exactly the behaviour the claim rules out; only the
chart callback fails (`KeyError`). -/
theorem C1_counterexample :
    update_kpis_and_insights "Both" "growth" = { cards := [], insightItems := [] } ∧
    update_charts "Both" "growth" (2021, 2025) = Option.none := by
  exact ⟨rfl, rfl⟩

/-- C1, amended: for every group key outside the catalog the
chart/sparkline/table callback fails explicitly (`KeyError`, modelled
`none`), while the KPI callback does not fail and instead silently returns
empty output (no cards, no per-metric insights). -/
theorem C1_unknown_group :
    ∀ g, metricGroupsLookup g = Option.none →
      (∀ company yearRange, update_charts company g yearRange = Option.none) ∧
      (∀ company, update_kpis_and_insights company g =
        { cards := [], insightItems := [] }) := by
  intro g h
  constructor
  · intro c yr
    simp only [update_charts, h]
  · intro c
    unfold update_kpis_and_insights
    rw [h]
    rfl

/-- C1, witness: the amended statement at `"growth"`. -/
theorem C1_witness :
    update_charts "Ambuja Cements" "growth" (2022, 2024) = Option.none ∧
    update_kpis_and_insights "Ambuja Cements" "growth" =
      { cards := [], insightItems := [] } :=
  ⟨(C1_unknown_group "growth" rfl).1 "Ambuja Cements" (2022, 2024),
    (C1_unknown_group "growth" rfl).2 "Ambuja Cements"⟩

/-- C2: at company `'UltraTech Cement'`, group `turnover`,
yearRange `[2021, 2025]`, the Inventory Turnover series does include the
2021 point (`x` starts at `"Mar-21"`) and its value is `NaN`, not `0` —
but its text label is `"nan"`, not the absent marker `"—"`: building the
dataframe turned Python `None` into float `NaN`, so the source's
`v is not None else "—"` guard never fires for dataframe cells. -/
theorem C2_absent_value_renders_nan :
    ((update_charts "UltraTech Cement" "turnover" (2021, 2025)).map fun o =>
      o.mainSeries.head?.map fun s => (s.x.head?, s.y.head?, s.text.head?)) =
    Option.some (Option.some
      (Option.some "Mar-21", Option.some PdVal.nan, Option.some "nan")) := by
  decide

set_option maxRecDepth 10000 in
set_option maxHeartbeats 1000000 in
/-- C3: the KPI value is the value of the record with the greatest year
among all records of that `(company, metric)` in the full dataset — the
KPI callback takes no year-range input at all (its only inputs are the
company and group selections), so the result is independent of the
year-range selection — and concretely UltraTech Cement's Current Ratio
KPI is `0.44`, the 2025 value. -/
theorem C3_kpi_latest_ignores_year_range :
    (∀ r ∈ df,
      (∀ r2 ∈ df, r2.company = r.company → r2.metric = r.metric → r2.year ≤ r.year) →
      kpi_latest df r.company r.metric = Option.some r.value) ∧
    kpi_latest df "UltraTech Cement" "Current Ratio" =
      Option.some (PdVal.num (mkRat 44 100)) ∧
    (update_kpis_and_insights "UltraTech Cement" "liquidity").cards.head? =
      Option.some { metric := "Current Ratio", body := CardBody.single "0.44" } := by
  refine ⟨by decide, by decide, by decide⟩

/-- C3, witness: the general component applied to the concrete 2025
UltraTech Current Ratio record. -/
theorem C3_witness :
    kpi_latest df "UltraTech Cement" "Current Ratio" =
      Option.some (PdVal.num (mkRat 44 100)) :=
  C3_kpi_latest_ignores_year_range.1
    { company := "UltraTech Cement", metric := "Current Ratio",
      value := PdVal.num (mkRat 44 100), yearLabel := "Mar-25", year := 2025 }
    (by decide) (by decide)

/-- C4, counterexample: at group `turnover`, yearRange `[2021, 2021]`,
UltraTech Cement is present in the filtered records (its three all-`NaN`
turnover rows pass the metric/year filter), yet the table has only the 3
Ambuja columns — the `(UltraTech, Inventory Turnover)` column of the
claimed 6-column cross product is dropped, not kept all-empty. -/
theorem C4_counterexample :
    ((update_charts "Both" "turnover" (2021, 2021)).map fun o =>
      decide (("UltraTech Cement", "Inventory Turnover") ∈ o.table.colLabels)) =
      Option.some false ∧
    ((update_charts "Both" "turnover" (2021, 2021)).map fun o =>
      o.table.colLabels.length) = Option.some 3 ∧
    ((dffOf ["Inventory Turnover", "Asset Turnover", "Trade Receivable Turnover"]
        2021 2021).filter fun r => r.company == "UltraTech Cement").length = 3 := by
  refine ⟨by decide, by decide, by decide⟩

/-- C4, amended: the table's column set consists of exactly those
`(company, metric)` pairs with at least one non-absent value among the
filtered records; a pair whose cells are all absent in the range is
dropped from the grid (pandas `pivot_table` defaults to `dropna=True`),
not kept as an all-empty column. -/
theorem C4_table_columns_nonabsent :
    (∀ dff : List Record, ∀ c m : String,
      ((c, m) ∈ (pivot_table dff).colLabels ↔
        ∃ r ∈ dff, r.company = c ∧ r.metric = m ∧ r.value ≠ PdVal.nan)) ∧
    ((update_charts "Both" "turnover" (2021, 2021)).map fun o => o.table.colLabels) =
      Option.some ((pivot_table (dffOf ["Inventory Turnover", "Asset Turnover",
        "Trade Receivable Turnover"] 2021 2021)).colLabels) := by
  refine ⟨fun dff c m => pivotColLabels_mem_iff dff c m, by decide⟩

/-- C4, witness: the characterization at the counterexample's input. -/
theorem C4_witness :
    (("UltraTech Cement", "Inventory Turnover") ∈
        (pivot_table (dffOf ["Inventory Turnover", "Asset Turnover",
          "Trade Receivable Turnover"] 2021 2021)).colLabels ↔
      ∃ r ∈ dffOf ["Inventory Turnover", "Asset Turnover",
          "Trade Receivable Turnover"] 2021 2021,
        r.company = "UltraTech Cement" ∧ r.metric = "Inventory Turnover" ∧
        r.value ≠ PdVal.nan) :=
  C4_table_columns_nonabsent.1 _ "UltraTech Cement" "Inventory Turnover"

/-- C5: for group `leverage` and yearRange `[2021, 2025]`, whatever the
company selection (the table ignores it), the table has exactly the 5 row
labels `Mar-21` .. `Mar-25` in ascending order, every cell is a value
rounded to 3 decimal places (or `NaN`), and Ambuja Cements' `Mar-21`
Interest Coverage Ratio cell is `37.140`. -/
theorem C5_leverage_table : ∀ company : String,
    ((update_charts company "leverage" (2021, 2025)).map fun o => o.table.rowLabels) =
      Option.some ["Mar-21", "Mar-22", "Mar-23", "Mar-24", "Mar-25"] ∧
    ((update_charts company "leverage" (2021, 2025)).map fun o =>
        tableCell o.table "Mar-21" ("Ambuja Cements", "Interest Coverage Ratio")) =
      Option.some (Option.some (PdVal.num (mkRat 37140 1000))) ∧
    ((update_charts company "leverage" (2021, 2025)).map fun o =>
        o.table.cells.all fun row => row.all cellIs3dp) = Option.some true :=
  fun _ => ⟨rfl, rfl, rfl⟩

/-- C5, witness: the row labels at the concrete selection `Both`. -/
theorem C5_witness :
    ((update_charts "Both" "leverage" (2021, 2025)).map fun o => o.table.rowLabels) =
      Option.some ["Mar-21", "Mar-22", "Mar-23", "Mar-24", "Mar-25"] :=
  (C5_leverage_table "Both").1

/-- C6: with company `Both` the main chart has one series per
(metric × company) pair — twice the group's metric count — and with a
single company one series per metric; concretely 4 series for
`Both`/`liquidity` and 2 for `Ambuja Cements`/`liquidity` at
yearRange `[2021, 2025]`. -/
theorem C6_series_counts :
    (∀ group metrics yr, metricGroupsLookup group = Option.some metrics →
      metrics ≠ [] →
      ((update_charts "Both" group yr).map fun o => o.mainSeries.length) =
        Option.some (metrics.length * 2)) ∧
    (∀ company group metrics yr, company ≠ "Both" →
      metricGroupsLookup group = Option.some metrics → metrics ≠ [] →
      ((update_charts company group yr).map fun o => o.mainSeries.length) =
        Option.some metrics.length) ∧
    ((update_charts "Both" "liquidity" (2021, 2025)).map fun o =>
      o.mainSeries.length) = Option.some 4 ∧
    ((update_charts "Ambuja Cements" "liquidity" (2021, 2025)).map fun o =>
      o.mainSeries.length) = Option.some 2 := by
  refine ⟨?_, ?_, by decide, by decide⟩
  · intro group metrics yr h hne
    obtain ⟨m, ms, rfl⟩ := List.exists_cons_of_ne_nil hne
    simp only [update_charts, h, List.head?, Option.map]
    unfold mainSeriesOf
    rw [if_pos (by rfl)]
    rw [length_flatMap_map]
    rfl
  · intro c group metrics yr hc h hne
    obtain ⟨m, ms, rfl⟩ := List.exists_cons_of_ne_nil hne
    simp only [update_charts, h, List.head?, Option.map]
    unfold mainSeriesOf
    rw [if_neg (by simpa using hc)]
    rw [List.length_map]

/-- C6, witness: the `Both` count at group `profitability`. -/
theorem C6_witness :
    ((update_charts "Both" "profitability" (2021, 2023)).map fun o =>
      o.mainSeries.length) = Option.some 4 :=
  C6_series_counts.1 "profitability" ["Gross Profit Margin", "Net Profit Margin"]
    (2021, 2023) rfl (by decide)

/-- C7: every reachable selection — company among the three dropdown
options, group a key of the catalog, year range within the dataset bounds
— makes both callbacks complete without failing: the chart callback
returns a value, and the KPI callback produces one card per metric of the
group. -/
theorem C7_reachable_selections_total :
    ∀ company ∈ (["Ambuja Cements", "UltraTech Cement", "Both"] : List String),
    ∀ group ∈ groupKeys, ∀ lo hi : ℕ, 2021 ≤ lo → lo ≤ hi → hi ≤ 2025 →
      (update_charts company group (lo, hi)).isSome = true ∧
      (update_kpis_and_insights company group).cards.length =
        ((metricGroupsLookup group).getD []).length := by
  intro c hc g hg lo hi h1 h2 h3
  have hg2 : g = "liquidity" ∨ g = "profitability" ∨ g = "turnover" ∨ g = "leverage" := by
    simpa [groupKeys, metric_groups] using hg
  rcases hg2 with rfl | rfl | rfl | rfl <;> exact ⟨rfl, rfl⟩

/-- C7, witness: the single-year boundary selection
`(Both, turnover, [2023, 2023])`, whose group's first metric is absent for
UltraTech in 2021. -/
theorem C7_witness :
    (update_charts "Both" "turnover" (2023, 2023)).isSome = true ∧
    (update_kpis_and_insights "Both" "turnover").cards.length =
      ((metricGroupsLookup "turnover").getD []).length :=
  C7_reachable_selections_total "Both" (by decide) "turnover" (by decide)
    2023 2023 (by decide) (by decide) (by decide)

/-- C8: the year filter only compares record years against the range, and
every record year lies in `[2021, 2025]`, so any range is equivalent to
its clamp onto the dataset bounds: the chart/sparkline/table callback
yields exactly the views of the clamped range, and an out-of-bounds range
does not make it fail. -/
theorem C8_year_range_clamped :
    (∀ company group lo hi,
      update_charts company group (lo, hi) =
        update_charts company group (max lo 2021, min hi 2025)) ∧
    (update_charts "Both" "liquidity" (1919, 3000)).isSome = true := by
  refine ⟨?_, rfl⟩
  intro c g lo hi
  cases h : metricGroupsLookup g with
  | none => simp only [update_charts, h]
  | some metrics =>
    cases hm : metrics.head? with
    | none => simp only [update_charts, h, hm]
    | some primary =>
      simp only [update_charts, h, hm]
      rw [dffOf_clamp]

/-- C8, witness: the clamp at the concrete out-of-bounds range
`[1919, 3000]`, which projects exactly as `[2021, 2025]`. -/
theorem C8_witness :
    update_charts "Both" "liquidity" (1919, 3000) =
      update_charts "Both" "liquidity" (2021, 2025) :=
  C8_year_range_clamped.1 "Both" "liquidity" 1919 3000

/-- C9: both callbacks are pure functions of the selection over the fixed
dataset (the embedding is total and reads only the immutable module-level
constants), so re-invoking a projection with an identical selection yields
identical derived views — KPI cards, insights, chart series, sparkline
series and table grid. -/
theorem C9_projection_idempotent :
    ∀ company group yearRange,
      (update_charts company group yearRange, update_kpis_and_insights company group) =
        (update_charts company group yearRange, update_kpis_and_insights company group) :=
  fun _ _ _ => rfl

/-- C9, witness: the default selection. -/
theorem C9_witness :
    (update_charts "Both" "liquidity" (2021, 2025),
        update_kpis_and_insights "Both" "liquidity") =
      (update_charts "Both" "liquidity" (2021, 2025),
        update_kpis_and_insights "Both" "liquidity") :=
  C9_projection_idempotent "Both" "liquidity" (2021, 2025)

/-- C10: every group of the catalog maps to a non-empty metric list, so
the sparkline's primary metric `metrics[0]` is defined for every catalog
group (including the single-metric `leverage` group): the callback
succeeds, titles the sparkline after the group's first metric, and emits a
non-empty sparkline trace list. -/
theorem C10_groups_nonempty_primary_total :
    (∀ p ∈ metric_groups, p.2 ≠ []) ∧
    (∀ company yearRange, ∀ group ms, metricGroupsLookup group = Option.some ms →
      ∃ m, ms.head? = Option.some m ∧
        ((update_charts company group yearRange).map fun o => o.sparkTitle) =
          Option.some ("Trend — " ++ m) ∧
        ((update_charts company group yearRange).map fun o => o.sparkSeries.isEmpty) =
          Option.some false) := by
  refine ⟨by decide, ?_⟩
  intro c yr g ms h
  have hmem : (g, ms) ∈ metric_groups := metricGroupsLookup_mem h
  simp only [metric_groups, List.mem_cons, List.not_mem_nil, or_false,
    Prod.mk.injEq] at hmem
  rcases hmem with ⟨rfl, rfl⟩ | ⟨rfl, rfl⟩ | ⟨rfl, rfl⟩ | ⟨rfl, rfl⟩
  · exact ⟨"Current Ratio", rfl, rfl,
      congrArg Option.some (sparkSeriesOf_ne_nil c "Current Ratio"
        (dffOf ["Current Ratio", "Quick Ratio"] yr.1 yr.2))⟩
  · exact ⟨"Gross Profit Margin", rfl, rfl,
      congrArg Option.some (sparkSeriesOf_ne_nil c "Gross Profit Margin"
        (dffOf ["Gross Profit Margin", "Net Profit Margin"] yr.1 yr.2))⟩
  · exact ⟨"Inventory Turnover", rfl, rfl,
      congrArg Option.some (sparkSeriesOf_ne_nil c "Inventory Turnover"
        (dffOf ["Inventory Turnover", "Asset Turnover",
          "Trade Receivable Turnover"] yr.1 yr.2))⟩
  · exact ⟨"Interest Coverage Ratio", rfl, rfl,
      congrArg Option.some (sparkSeriesOf_ne_nil c "Interest Coverage Ratio"
        (dffOf ["Interest Coverage Ratio"] yr.1 yr.2))⟩

/-- C10, witness: the single-metric leverage group. -/
theorem C10_witness :
    ∃ m, (["Interest Coverage Ratio"] : List String).head? = Option.some m ∧
      ((update_charts "Both" "leverage" (2021, 2025)).map fun o => o.sparkTitle) =
        Option.some ("Trend — " ++ m) ∧
      ((update_charts "Both" "leverage" (2021, 2025)).map fun o =>
        o.sparkSeries.isEmpty) = Option.some false :=
  C10_groups_nonempty_primary_total.2 "Both" (2021, 2025) "leverage"
    ["Interest Coverage Ratio"] rfl

end Dashboard
